import Mathlib

/-!
Shallow embedding of `netneurotools/datasets/fetchers.py`.

Each Python fetcher is modelled as a pure Lean function. The external
fetch-and-cache utility `_fetch_files` (from nilearn) is modelled as a
`Delegate`: a function from the ordered list of requested relative paths to
either an error (a raised exception) or the ordered list of local paths.
Raising `ValueError` is modelled as `Except.error msg` with the exact
formatted message string. File-content loaders (`np.loadtxt`, `json.load`,
`open().read()`, `nib.load(...).agg_data()`) are modelled through a
`FileEnv` of abstract content oracles, since file contents are outside the
program.
-/

set_option autoImplicit false

/-- Python `os.path.join(a, b)` for the relative paths used in the repository. -/
def pyJoin (a b : String) : String := a ++ "/" ++ b

/-- Python `os.path.join(a, b, c)`. -/
def pyJoin3 (a b c : String) : String := a ++ "/" ++ b ++ "/" ++ c

/-- A single-quote character, as used by Python `repr` of strings. -/
def pySq : String := "\x27"

/-- Python builtin `repr` of a string (as produced by `str.format` on a list element). -/
def pyRepr (s : String) : String := pySq ++ s ++ pySq

/-- Python formatting `str(list_of_strings)`, the form in which the fetchers interpolate
their list of valid choices into error messages. -/
def pyListRepr (l : List String) : String :=
  "[" ++ String.intercalate ", " (l.map pyRepr) ++ "]"

/-- Python strip `str.strip()`: drop leading and trailing whitespace. Written by
structural recursion on the character list so that it evaluates inside the
kernel. -/
def pyStrip (s : String) : String :=
  ⟨((s.data.dropWhile Char.isWhitespace).reverse.dropWhile
      Char.isWhitespace).reverse⟩

/-- Python slice `data[::2]` (every second element, starting at index 0). -/
def everyOther {α : Type} : List α → List α
  | [] => []
  | [a] => [a]
  | a :: _ :: rest => a :: everyOther rest

/-- The stride-2 left/right pairing `[ANNOT(*data[i:i + 2]) for i in
range(0, len(data), 2)]` of `fetchers.py` (lines 142, 217, 344, 569).
On an even-length list this matches the comprehension exactly; on an
odd-length list Python would raise a `TypeError` (a 1-element slice cannot
fill the 2-field `ANNOT` tuple), a case never reached by the fetchers. -/
def pairUp : List String → List (String × String)
  | a :: b :: rest => (a, b) :: pairUp rest
  | _ => []

/-- The chunking `[xs[i:i + 2] for i in range(0, len(xs), 2)]` used (with
`xs = data[::2]`) by the `gcs` branch of `fetch_cammoun2012` (line 144). -/
def chunk2 : List String → List (List String)
  | a :: b :: rest => [a, b] :: chunk2 rest
  | [a] => [[a]]
  | [] => []

/-- Stable ascending insertion used by `pySorted`. -/
def insertSorted (s : String) : List String → List String
  | [] => [s]
  | a :: rest => if s ≤ a then s :: a :: rest else a :: insertSorted s rest

/-- The Python builtin `sorted` on a list of strings (ascending lexicographic). -/
def pySorted : List String → List String
  | [] => []
  | a :: rest => insertSorted a (pySorted rest)

/-- A value stored in a returned bundle: a bare path, an `ANNOT` left/right
pair, a list of paths, or a loaded/parsed content value. -/
inductive BundleVal where
  | path (p : String)
  | pair (lh rh : String)
  | paths (ps : List String)
  | numTable (t : List (List Int))
  | strTable (t : List (List String))
  | numArr (a : List Int)
  | text (s : String)
  | json (j : String)
deriving DecidableEq, Repr

/-- A bunch (`sklearn.utils.Bunch`) built by `Bunch(**dict(zip(keys, data)))`:
an ordered association of semantic keys to values. -/
abbrev Bundle := List (String × BundleVal)

/-- What a fetcher hands back on success: a keyed bundle, a bare directory
path (`fetch_hcp_standards`), or a plain dict of bundles (`fetch_annotation`
given a list). -/
inductive FetchReturn where
  | bundle (b : Bundle)
  | barePath (p : String)
  | dict (d : List (String × Bundle))
deriving DecidableEq, Repr

/-- Whether the return value of a fetcher is a keyed result bundle. -/
def FetchReturn.isBundle : FetchReturn → Bool
  | .bundle _ => true
  | _ => false

/-- Whether an `Except` result is a success. -/
def exceptIsOk (e : Except String FetchReturn) : Bool :=
  match e with
  | .ok _ => true
  | .error _ => false

/-- The external fetch utility `_fetch_files`: ordered relative paths in,
ordered local paths out, or a raised failure. -/
abbrev Delegate := List String → Except String (List String)

/-- The contract of the fetch delegate (spec section 4.3): on success it
returns one local path per requested relative path, in request order. -/
def DelegateContract (d : Delegate) : Prop :=
  ∀ fs ls, d fs = .ok ls → ls.length = fs.length

/-- Abstract content oracles for the per-dataset loaders. `loadNum p = none`
models `np.loadtxt(p, delimiter=«,»)` raising `ValueError`. -/
structure FileEnv where
  loadNum : String → Option (List (List Int))
  loadStr : String → List (List String)
  readText : String → String
  readJson : String → String
  loadTwoCols : String → List Int × List Int
  aggData : String → List Int

/- ------------------------------------------------------------------ -/
/- fetch_cammoun2012 (fetchers.py lines 24-148)                        -/
/- ------------------------------------------------------------------ -/

/-- The registry of valid `version` selectors of `fetch_cammoun2012`
(fetchers.py lines 85-88). -/
def cammounVersions : List String :=
  ["gcs", "fsaverage", "fsaverage5", "fsaverage6", "fslr32k",
   "MNI152NLin2009aSym"]

/-- The five scale keys of `fetch_cammoun2012` (line 95). -/
def cammounKeys : List String :=
  ["scale033", "scale060", "scale125", "scale250", "scale500"]

/-- The deprecation warnings emitted by `warnings.warn` for the deprecated
aliases (lines 71-83); an empty list means no warning. -/
def cammounDeprWarnings (version : String) : List String :=
  if version = "surface" then
    ["Providing `version=\"surface\"` is deprecated and will be removed " ++
     "in a future release. For consistent behavior please use " ++
     "`version=\"fsaverage\"` instead."]
  else if version = "volume" then
    ["Providing `version=\"volume\"` is deprecated and will be removed " ++
     "in a future release. For consistent behavior please use " ++
     "`version=\"MNI152NLin2009aSym\"` instead."]
  else []

/-- Remapping of deprecated aliases performed before validation
(lines 71-83). -/
def cammounNormalize (version : String) : String :=
  if version = "surface" then "fsaverage"
  else if version = "volume" then "MNI152NLin2009aSym"
  else version

/-- The filename list construction of `fetch_cammoun2012` (lines 108-132).
`res.takeRight 3` is Python `res[-3:]`, `res.drop 5` is `res[5:]`. -/
def cammounFilenames (version : String) : List String :=
  if version = "MNI152NLin2009aSym" then
    (cammounKeys.map fun res =>
      "atl-Cammoun2012_space-MNI152NLin2009aSym_res-" ++ res.takeRight 3 ++
      "_deterministic.nii.gz") ++
    ["atl-Cammoun2012_space-MNI152NLin2009aSym_info.csv"]
  else if version = "fslr32k" then
    cammounKeys.flatMap fun res => ["L", "R"].map fun hemi =>
      "atl-Cammoun2012_space-fslr32k_res-" ++ res.takeRight 3 ++
      "_hemi-" ++ hemi ++ "_deterministic.label.gii"
  else if version ∈ ["fsaverage", "fsaverage5", "fsaverage6"] then
    cammounKeys.flatMap fun res => ["L", "R"].map fun hemi =>
      "atl-Cammoun2012_space-" ++ version ++ "_res-" ++ res.takeRight 3 ++
      "_hemi-" ++ hemi ++ "_deterministic.annot"
  else
    (cammounKeys.take 4 ++ ["scale500v1", "scale500v2", "scale500v3"]).flatMap
      fun res => ["L", "R"].flatMap fun hemi => [".gcs", ".ctab"].map fun suff =>
        "atl-Cammoun2012_res-" ++ res.drop 5 ++ "_hemi-" ++ hemi ++
        "_probabilistic" ++ suff

/-- The regrouping of fetched paths into the returned bundle
(lines 139-148). The `gcs` branch keeps only the `.gcs` paths
(`data[::2]`), pairs them per scale, and merges the last three
pairs (the three files of `scale500`) into one flattened list. -/
def cammounAssemble (version : String) (data : List String) : Bundle :=
  if version = "MNI152NLin2009aSym" then
    List.zip (cammounKeys ++ ["info"]) (data.map .path)
  else if version ∈ ["fslr32k", "fsaverage", "fsaverage5", "fsaverage6"] then
    List.zip cammounKeys ((pairUp data).map fun p => .pair p.1 p.2)
  else
    let grouped := chunk2 (everyOther data)
    let merged := grouped.take (grouped.length - 3) ++
      [(grouped.drop (grouped.length - 3)).flatten]
    List.zip cammounKeys (merged.map .paths)

/-- Embeds `fetch_cammoun2012`: emitted deprecation warnings paired with either the
raised `ValueError` or the returned bundle. -/
def fetchCammoun2012 (d : Delegate) (version : String) :
    List String × Except String FetchReturn :=
  let ws := cammounDeprWarnings version
  let v := cammounNormalize version
  (ws,
    if v ∉ cammounVersions then
      .error ("The version of Cammoun et al., 2012 parcellation requested \"" ++
        v ++ "\" does not exist. Must be one of " ++ pyListRepr cammounVersions)
    else do
      let data ← d ((cammounFilenames v).map (pyJoin3 "atl-cammoun2012" v))
      pure (.bundle (cammounAssemble v data)))

/- ------------------------------------------------------------------ -/
/- fetch_conte69 (lines 151-219)                                       -/
/- ------------------------------------------------------------------ -/

/-- The three surface keys of `fetch_conte69` (line 192). -/
def conte69Keys : List String := ["midthickness", "inflated", "vinflated"]

/-- Filenames requested by `fetch_conte69` (lines 205-208). -/
def conte69Filenames : List String :=
  (conte69Keys.flatMap fun res => ["L", "R"].map fun hemi =>
    "tpl-conte69/tpl-conte69_space-MNI305_variant-fsLR32k_" ++ res ++ "." ++
    hemi ++ ".surf.gii") ++
  ["tpl-conte69/template_description.json"]

/-- Embeds `fetch_conte69` (lines 210-219): the last path is parsed as JSON, the
first six are paired per hemisphere (`range(0, 6, 2)` gives three pairs). -/
def fetchConte69 (d : Delegate) (env : FileEnv) : Except String FetchReturn := do
  let data ← d conte69Filenames
  let jsonVal := BundleVal.json (env.readJson (data.getLastD ""))
  let pairs := (pairUp data.dropLast).take 3
  pure (.bundle (List.zip (conte69Keys ++ ["info"])
    ((pairs.map fun p => .pair p.1 p.2) ++ [jsonVal])))

/- ------------------------------------------------------------------ -/
/- fetch_pauli2018 (lines 222-272)                                     -/
/- ------------------------------------------------------------------ -/

/-- Modelled from the spec: one entry of the static registry list returned
by `_get_dataset_info(«atl-pauli2018»)` (the registry module
`datasets/utils.py` is not part of the sources; spec sections 3 and 4.1
describe it as an immutable lookup of name/url/checksum records). -/
structure PauliEntry where
  name : String
  url : String
  md5 : String

/-- Embeds `fetch_pauli2018` (lines 258-272): requests the name of each registry entry
and zips the three fixed keys with the returned paths. -/
def fetchPauli2018 (preg : List PauliEntry) (d : Delegate) :
    Except String FetchReturn := do
  let data ← d (preg.map (·.name))
  pure (.bundle (List.zip ["probabilistic", "deterministic", "info"]
    (data.map .path)))

/- ------------------------------------------------------------------ -/
/- fetch_fsaverage (lines 275-346)                                     -/
/- ------------------------------------------------------------------ -/

/-- The registry of valid `version` selectors of `fetch_fsaverage`
(lines 310-312). -/
def fsaverageVersions : List String :=
  ["fsaverage", "fsaverage3", "fsaverage4", "fsaverage5", "fsaverage6"]

/-- The six surface keys of `fetch_fsaverage` (line 318). -/
def fsaverageKeys : List String :=
  ["orig", "white", "smoothwm", "pial", "inflated", "sphere"]

/-- Filenames of `fetch_fsaverage` (lines 331-334). -/
def fsaverageFilenames (version : String) : List String :=
  fsaverageKeys.flatMap fun surf => ["lh", "rh"].map fun hemi =>
    pyJoin3 version "surf" (hemi ++ "." ++ surf)

/-- Embeds `fetch_fsaverage` (lines 310-346). `fsLookup` models
`check_fs_subjid(version)[1]` (repository code outside the sources):
`some dir` is a found FreeSurfer subject directory, `none` is the raised
`FileNotFoundError` that routes to the fetch delegate. -/
def fetchFsaverage (fsLookup : String → Option String) (d : Delegate)
    (version : String) : Except String FetchReturn :=
  if version ∉ fsaverageVersions then
    .error ("The version of fsaverage requested \"" ++ version ++
      "\" does not exist. Must be one of " ++ pyListRepr fsaverageVersions)
  else do
    let data ← match fsLookup version with
      | some sdir => pure ((fsaverageFilenames version).map (pyJoin sdir))
      | none => d ((fsaverageFilenames version).map (pyJoin "tpl-fsaverage"))
    pure (.bundle (List.zip fsaverageKeys
      (((pairUp data).take 6).map fun p => .pair p.1 p.2)))

/- ------------------------------------------------------------------ -/
/- available_connectomes / fetch_connectome (lines 349-432)            -/
/- ------------------------------------------------------------------ -/

/-- Modelled from the spec: the record held by the `ds-connectomes`
registry for one dataset (url/checksum plus the list of per-file keys;
spec sections 3 and 4.1). -/
structure ConnInfo where
  url : String
  md5 : String
  keys : List String

/-- Embeds `available_connectomes` (lines 349-359): the sorted registry keys. -/
def availableConnectomes (reg : List (String × ConnInfo)) : List String :=
  pySorted (reg.map Prod.fst)

/-- Filenames requested by `fetch_connectome` (lines 417-419): one `.csv`
per registry key, then `ref.txt`, all under the dataset directory. -/
def connectomeFilenames (ds : String) (info : ConnInfo) : List String :=
  info.keys.map (fun fn => pyJoin ds (fn ++ ".csv")) ++ [pyJoin ds "ref.txt"]

/-- The loader `try: np.loadtxt(...) except ValueError: np.loadtxt(..., dtype=str)`
loader applied to each delimited file (lines 425-428). -/
def loadDelim (env : FileEnv) (p : String) : BundleVal :=
  match env.loadNum p with
  | some t => .numTable t
  | none => .strTable (env.loadStr p)

/-- The content-loading loop of `fetch_connectome` (lines 424-430): every
path but the last goes through the delimited loader, the last is read as
stripped text. -/
def connectomeLoad (env : FileEnv) (data : List String) : List BundleVal :=
  data.dropLast.map (loadDelim env) ++
  [.text (pyStrip (env.readText (data.getLastD "")))]

/-- Embeds `fetch_connectome` (lines 362-432). The `none` lookup branch models the
`KeyError` Python would raise; it is unreachable once the membership check
has passed. -/
def fetchConnectome (reg : List (String × ConnInfo)) (d : Delegate)
    (env : FileEnv) (dataset : String) : Except String FetchReturn :=
  if dataset ∉ availableConnectomes reg then
    .error ("Provided dataset " ++ dataset ++
      " not available; must be one of " ++ pyListRepr (availableConnectomes reg))
  else
    match reg.lookup dataset with
    | none => .error "KeyError"
    | some info => do
        let data ← d (connectomeFilenames dataset info)
        pure (.bundle (List.zip (info.keys ++ ["ref"]) (connectomeLoad env data)))

/- ------------------------------------------------------------------ -/
/- fetch_vazquez_rodriguez2019 (lines 435-487)                         -/
/- ------------------------------------------------------------------ -/

/-- Embeds `fetch_vazquez_rodriguez2019` (lines 466-487): one csv, unpacked into
the two columns rsquared and gradient. -/
def fetchVazquezRodriguez2019 (d : Delegate) (env : FileEnv) :
    Except String FetchReturn := do
  let data ← d [pyJoin "ds-vazquez_rodriguez2019" "rsquared_gradient.csv"]
  let rg := env.loadTwoCols (data.headD "")
  pure (.bundle [("rsquared", .numArr rg.1), ("gradient", .numArr rg.2)])

/- ------------------------------------------------------------------ -/
/- fetch_schaefer2018 (lines 490-571)                                  -/
/- ------------------------------------------------------------------ -/

/-- The registry of valid `version` selectors of `fetch_schaefer2018`
(line 531). -/
def schaeferVersions : List String :=
  ["fsaverage", "fsaverage5", "fsaverage6", "fslr32k"]

/-- The twenty keys of `fetch_schaefer2018` (lines 538-541):
`range(100, 1001, 100)` parcel counts crossed with 7 and 17 networks. -/
def schaeferKeys : List String :=
  (List.range 10).flatMap fun i => [7, 17].map fun n =>
    toString ((i + 1) * 100) ++ "Parcels" ++ toString n ++ "Networks"

/-- Filenames of `fetch_schaefer2018` (lines 554-562): a single `LR`
dlabel file per key for `fslr32k`, otherwise L/R annot files. -/
def schaeferFilenames (version : String) : List String :=
  let hemispheres := if version = "fslr32k" then ["LR"] else ["L", "R"]
  let suffix := if version = "fslr32k" then "dlabel.nii" else "annot"
  schaeferKeys.flatMap fun desc => hemispheres.map fun hemi =>
    "atl-Schaefer2018_space-" ++ version ++ "_hemi-" ++ hemi ++ "_desc-" ++
    desc ++ "_deterministic." ++ suffix

/-- The regrouping of `fetch_schaefer2018` (lines 568-571): annot versions
pair hemispheres (`range(0, len(keys) * 2, 2)` gives twenty pairs), the
cifti version zips bare paths. -/
def schaeferAssemble (version : String) (data : List String) : Bundle :=
  let suffix := if version = "fslr32k" then "dlabel.nii" else "annot"
  if suffix = "annot" then
    List.zip schaeferKeys (((pairUp data).take 20).map fun p => .pair p.1 p.2)
  else
    List.zip schaeferKeys (data.map .path)

/-- Embeds `fetch_schaefer2018` (lines 531-571). -/
def fetchSchaefer2018 (d : Delegate) (version : String) :
    Except String FetchReturn :=
  if version ∉ schaeferVersions then
    .error ("The version of Schaefer et al., 2018 parcellation requested \"" ++
      version ++ "\" does not exist. Must be one of " ++
      pyListRepr schaeferVersions)
  else do
    let data ← d ((schaeferFilenames version).map
      (pyJoin3 "atl-schaefer2018" version))
    pure (.bundle (schaeferAssemble version data))

/- ------------------------------------------------------------------ -/
/- fetch_hcp_standards (lines 574-612)                                 -/
/- ------------------------------------------------------------------ -/

/-- The two files requested by `fetch_hcp_standards` (lines 606-608). -/
def hcpFilenames : List String :=
  ["L.sphere.32k_fs_LR.surf.gii", "R.sphere.32k_fs_LR.surf.gii"]

/-- Embeds `fetch_hcp_standards` (lines 598-612): fetches the two sphere files,
discards the returned paths, and returns the bare directory path
`op.join(data_dir, «standard_mesh_atlases»)`. -/
def fetchHcpStandards (d : Delegate) (dataDir : String) :
    Except String FetchReturn := do
  let _ ← d (hcpFilenames.map (pyJoin "standard_mesh_atlases"))
  pure (.barePath (pyJoin dataDir "standard_mesh_atlases"))

/- ------------------------------------------------------------------ -/
/- fetch_voneconomo (lines 615-671)                                    -/
/- ------------------------------------------------------------------ -/

/-- Filenames of `fetch_voneconomo` (lines 663-666). -/
def voneconomoFilenames : List String :=
  (["L", "R"].flatMap fun hemi => ["gcs", "ctab"].map fun suff =>
    "atl-vonEconomoKoskinas_hemi-" ++ hemi ++ "_probabilistic." ++ suff) ++
  ["atl-vonEconomoKoskinas_info.csv"]

/-- The regrouping of `fetch_voneconomo` (line 669):
`[ANNOT(*data[:-1:2])] + [ANNOT(*data[1:-1:2])] + [data[-1]]`. Any list
length other than five makes `ANNOT(*...)` raise in Python; that case is
never reached. -/
def voneconomoAssemble (data : List String) : Bundle :=
  let body := data.dropLast
  match everyOther body, everyOther (body.drop 1), data.getLast? with
  | [gl, gr], [cl, cr], some info =>
      [("gcs", .pair gl gr), ("ctab", .pair cl cr), ("info", .path info)]
  | _, _, _ => []

/-- Embeds `fetch_voneconomo` (lines 651-671). -/
def fetchVoneconomo (d : Delegate) : Except String FetchReturn := do
  let data ← d (voneconomoFilenames.map (pyJoin "atl-voneconomo_koskinas"))
  pure (.bundle (voneconomoAssemble data))

/- ------------------------------------------------------------------ -/
/- available_annotations / fetch_annotation (lines 674-771)            -/
/- ------------------------------------------------------------------ -/

/-- Modelled from the spec: the record held by the `ds-annotations`
registry for one annotation name (url/checksum plus the density used in
the filename template and a description; spec sections 3 and 4.1). -/
structure AnnotInfo where
  url : String
  md5 : String
  density : String
  desc : String

/-- The registry `ds-annotations`, keyed by annotation name. -/
abbrev AnnotReg := List (String × AnnotInfo)

/-- Embeds `available_annotations()` (lines 674-694): the sorted registry keys. -/
def availableAnnots (areg : AnnotReg) : List String :=
  pySorted (areg.map Prod.fst)

/-- Filenames of the single-name branch of `fetch_annotation`
(lines 759-763): `desc` is the lower-cased name with underscores removed. -/
def annotFilenames (name : String) (info : AnnotInfo) : List String :=
  let desc := (name.toLower).replace "_" ""
  ((["L", "R"].map fun hemi =>
    "space-fsaverage_hemi-" ++ hemi ++ "_den-" ++ info.density ++ "_desc-" ++
    desc ++ ".shape.gii") ++ ["refs.txt"]).map (pyJoin name)

/-- The single-name branch of `fetch_annotation` (lines 743-771): validate
against the sorted registry, fetch two gii files plus `refs.txt`, stack the
per-hemisphere data and strip the reference text. -/
def fetchAnnotSingle (areg : AnnotReg) (d : Delegate) (env : FileEnv)
    (name : String) : Except String Bundle :=
  if name ∉ availableAnnots areg then
    .error ("Provided dataset " ++ name ++
      " not available; must be one of " ++ pyListRepr (availableAnnots areg))
  else
    match areg.lookup name with
    | none => .error "KeyError"
    | some info => do
        let data ← d (annotFilenames name info)
        let out := data.dropLast.flatMap env.aggData
        pure [("data", .numArr out),
              ("ref", .text (pyStrip (env.readText (data.getLastD ""))))]

/-- The argument of `fetch_annotation`: a Python `str`, or a non-string
iterable of names. -/
inductive AnnotArg where
  | str (s : String)
  | list (l : List String)

/-- The dict comprehension of the iterable branch (lines 738-741): fetch
each name in order, propagating the first failure. -/
def fetchAnnotPairs (areg : AnnotReg) (d : Delegate) (env : FileEnv) :
    List String → Except String (List (String × Bundle))
  | [] => .ok []
  | a :: rest => do
      let b ← fetchAnnotSingle areg d env a
      let prs ← fetchAnnotPairs areg d env rest
      pure ((a, b) :: prs)

/-- Embeds `fetch_annotation` (lines 697-771): the string `all` is replaced by the
full list of available names before the iterable check; a list yields a
plain dict of per-name bundles; any other string goes through the
single-name branch. -/
def fetchAnnot (areg : AnnotReg) (d : Delegate) (env : FileEnv) :
    AnnotArg → Except String FetchReturn
  | .str s =>
      if s = "all" then
        (fetchAnnotPairs areg d env (availableAnnots areg)).map .dict
      else
        (fetchAnnotSingle areg d env s).map .bundle
  | .list l => (fetchAnnotPairs areg d env l).map .dict

/- ------------------------------------------------------------------ -/
/- Concrete instances used by witnesses and counterexamples            -/
/- ------------------------------------------------------------------ -/

/-- A fetch delegate that succeeds, mapping each relative path to a local
path under a fixed cache root. -/
def okD : Delegate := fun fs => .ok (fs.map (pyJoin "/root/nnt-data"))

/-- A fetch delegate that always fails (network/checksum failure). -/
def failD : Delegate := fun _ => .error "FetchFailure"

/-- A concrete content environment: numeric parsing always fails. -/
def env0 : FileEnv where
  loadNum := fun _ => none
  loadStr := fun _ => []
  readText := fun _ => ""
  readJson := fun _ => ""
  loadTwoCols := fun _ => ([], [])
  aggData := fun _ => []

/-- A concrete content environment whose numeric parsing always succeeds. -/
def env1 : FileEnv where
  loadNum := fun _ => some [[1, 2], [3, 4]]
  loadStr := fun _ => []
  readText := fun _ => " a reference \n"
  readJson := fun _ => ""
  loadTwoCols := fun _ => ([], [])
  aggData := fun _ => []

/-- A tiny concrete connectome registry. -/
def connReg0 : List (String × ConnInfo) :=
  [("celegans", { url := "u", md5 := "m", keys := ["conn", "dist", "labels"] })]

/-- A tiny concrete annotation registry. -/
def annReg0 : AnnotReg :=
  [("abagen_genepc1", { url := "u", md5 := "m", density := "10k", desc := "d" })]

/-- A tiny concrete pauli2018 registry. -/
def pauliReg0 : List PauliEntry :=
  [{ name := "prob.nii.gz", url := "u", md5 := "m" },
   { name := "det.nii.gz", url := "u", md5 := "m" },
   { name := "info.csv", url := "u", md5 := "m" }]

/-- The list with the entries at positions `i` and `j` exchanged (the
hypothetical reordering of two fetched paths considered by the
positional-stability property of the spec). -/
def swapAt (i j : Nat) (l : List String) : List String :=
  (l.set i (l.getD j "")).set j (l.getD i "")

/-- On success the fetcher returned a keyed bundle (errors vacuously pass). -/
def okIsBundle : Except String FetchReturn → Bool
  | .ok r => r.isBundle
  | .error _ => true

/-- On success the fetcher returned a bare path, not a bundle (errors
vacuously pass). -/
def okIsBare : Except String FetchReturn → Bool
  | .ok (.barePath _) => true
  | .ok _ => false
  | .error _ => true

/- ------------------------------------------------------------------ -/
/- Helper lemmas                                                       -/
/- ------------------------------------------------------------------ -/

theorem pairUp_length : ∀ l : List String, (pairUp l).length = l.length / 2
  | [] => rfl
  | [_] => by simp [pairUp]
  | _ :: _ :: rest => by
      simp only [pairUp, List.length_cons, pairUp_length rest]
      omega

theorem pairUp_getElem? : ∀ (l : List String) (k : Nat), k < l.length / 2 →
    (pairUp l)[k]? = some (l.getD (2*k) "", l.getD (2*k+1) "")
  | [], k, h => by simp at h
  | [_], k, h => by simp only [List.length_singleton] at h; omega
  | a :: b :: rest, 0, _ => by simp [pairUp]
  | a :: b :: rest, k+1, h => by
      have ih := pairUp_getElem? rest k (by simp only [List.length_cons] at h; omega)
      simp only [pairUp, List.getElem?_cons_succ, ih,
        show 2*(k+1) = (2*k+1)+1 by omega, show (2*k+1)+1+1 = ((2*k+1)+1)+1 from rfl,
        List.getD_cons_succ]

theorem pairUp_map (f : String → String) :
    ∀ l : List String, pairUp (l.map f) = (pairUp l).map fun p => (f p.1, f p.2)
  | [] => rfl
  | [_] => rfl
  | a :: b :: rest => by simp [pairUp, pairUp_map f rest]

theorem length_swapAt (i j : Nat) (l : List String) :
    (swapAt i j l).length = l.length := by simp [swapAt]

theorem getD_swapAt (i j n : Nat) (l : List String)
    (hi : i < l.length) (hj : j < l.length) :
    (swapAt i j l).getD n "" =
      if n = j then l.getD i "" else if n = i then l.getD j "" else l.getD n "" := by
  simp only [swapAt, List.getD_eq_getElem?_getD]
  by_cases hnj : n = j
  · subst hnj
    rw [List.getElem?_set_eq_of_lt _ (by simpa using hj)]
    simp [List.getElem?_eq_getElem hi]
  · rw [List.getElem?_set_ne (by omega)]
    by_cases hni : n = i
    · subst hni
      rw [List.getElem?_set_eq_of_lt _ hi]
      simp [List.getElem?_eq_getElem hj, hnj]
    · rw [List.getElem?_set_ne (by omega)]
      simp [hnj, hni]

/-- C4: on an even-length flat path list the stride-2 hemisphere assembler
produces exactly N/2 paired entries, the k-th pair being the paths at
positions 2k and 2k+1, in original order. -/
theorem c4_pair_assembler (l : List String) (_h : l.length % 2 = 0) :
    (pairUp l).length = l.length / 2 ∧
    ∀ k, k < l.length / 2 →
      (pairUp l)[k]? = some (l.getD (2*k) "", l.getD (2*k+1) "") :=
  ⟨pairUp_length l, fun k hk => pairUp_getElem? l k hk⟩

/-- Witness for C4 on a concrete four-path list. -/
theorem c4_pair_assembler_witness :
    (["w", "x", "y", "z"] : List String).length % 2 = 0 ∧
    (pairUp ["w", "x", "y", "z"]).length = 2 ∧
    (pairUp ["w", "x", "y", "z"])[1]? = some ("y", "z") := by
  refine ⟨by decide, ?_, ?_⟩
  · simpa using (c4_pair_assembler ["w", "x", "y", "z"] (by decide)).1
  · simpa using (c4_pair_assembler ["w", "x", "y", "z"] (by decide)).2 1 (by decide)

/-- C5: for `fetch_cammoun2012` version `gcs` (28 fetched paths), the bundle
has exactly the five listed scale keys, and `scale500` holds the single
flattened list of the pairs of the three split files (positions 16, 18, 20, 22,
24, 26: the `.gcs` paths of scale500v1, scale500v2, scale500v3), merged in
order. -/
theorem c5_gcs_merge
    (a0 a1 a2 a3 a4 a5 a6 a7 a8 a9 a10 a11 a12 a13 a14 a15 a16 a17 a18 a19
     a20 a21 a22 a23 a24 a25 a26 a27 : String) :
    cammounAssemble "gcs"
      [a0, a1, a2, a3, a4, a5, a6, a7, a8, a9, a10, a11, a12, a13, a14, a15,
       a16, a17, a18, a19, a20, a21, a22, a23, a24, a25, a26, a27] =
      [("scale033", .paths [a0, a2]), ("scale060", .paths [a4, a6]),
       ("scale125", .paths [a8, a10]), ("scale250", .paths [a12, a14]),
       ("scale500", .paths [a16, a18, a20, a22, a24, a26])] ∧
    (cammounAssemble "gcs"
      [a0, a1, a2, a3, a4, a5, a6, a7, a8, a9, a10, a11, a12, a13, a14, a15,
       a16, a17, a18, a19, a20, a21, a22, a23, a24, a25, a26, a27]).length =
      cammounKeys.length :=
  ⟨rfl, rfl⟩

/-- C6: grouping is purely positional. Swapping the paths at two positions
`i` and `j` that belong to different semantic keys changes exactly the two
affected pair entries: every other key keeps its entry, key `i / 2` now
holds the path that was at `j` (in the slot `i` occupies), key `j / 2`
symmetrically, and mapping any function over the paths commutes with the
assembler, so no path content influences the assignment. -/
theorem c6_positional_grouping (l : List String) (i j : Nat)
    (hi : i < l.length) (hj : j < l.length) (he : l.length % 2 = 0)
    (hij : i / 2 ≠ j / 2) :
    (pairUp (swapAt i j l)).length = (pairUp l).length ∧
    (∀ k, k < l.length / 2 → k ≠ i / 2 → k ≠ j / 2 →
      (pairUp (swapAt i j l))[k]? = (pairUp l)[k]?) ∧
    ((pairUp (swapAt i j l))[i / 2]? =
      some (if i % 2 = 0 then (l.getD j "", l.getD (i+1) "")
            else (l.getD (i-1) "", l.getD j ""))) ∧
    ((pairUp (swapAt i j l))[j / 2]? =
      some (if j % 2 = 0 then (l.getD i "", l.getD (j+1) "")
            else (l.getD (j-1) "", l.getD i ""))) ∧
    (∀ f : String → String,
      pairUp (l.map f) = (pairUp l).map fun p => (f p.1, f p.2)) := by
  have hsl : (swapAt i j l).length = l.length := length_swapAt i j l
  refine ⟨?_, ?_, ?_, ?_, fun f => pairUp_map f l⟩
  · rw [pairUp_length, pairUp_length, hsl]
  · intro k hk hki hkj
    rw [pairUp_getElem? _ k (by rw [hsl]; exact hk), pairUp_getElem? l k hk,
      getD_swapAt i j (2*k) l hi hj, getD_swapAt i j (2*k+1) l hi hj,
      if_neg (by omega), if_neg (by omega), if_neg (by omega), if_neg (by omega)]
  · rw [pairUp_getElem? _ (i/2) (by rw [hsl]; omega),
      getD_swapAt i j (2*(i/2)) l hi hj, getD_swapAt i j (2*(i/2)+1) l hi hj]
    by_cases hp : i % 2 = 0
    · rw [if_pos hp, show 2*(i/2)+1 = i+1 by omega, show 2*(i/2) = i by omega]
      split_ifs <;> first | rfl | omega
    · rw [if_neg hp, show 2*(i/2)+1 = i by omega, show 2*(i/2) = i-1 by omega]
      split_ifs <;> first | rfl | omega
  · rw [pairUp_getElem? _ (j/2) (by rw [hsl]; omega),
      getD_swapAt i j (2*(j/2)) l hi hj, getD_swapAt i j (2*(j/2)+1) l hi hj]
    by_cases hp : j % 2 = 0
    · rw [if_pos hp, show 2*(j/2)+1 = j+1 by omega, show 2*(j/2) = j by omega]
      split_ifs <;> first | rfl | omega
    · rw [if_neg hp, show 2*(j/2)+1 = j by omega, show 2*(j/2) = j-1 by omega]
      split_ifs <;> first | rfl | omega

/-- Witness for C6: swapping positions 0 and 2 of a concrete four-path list
moves path `c` to key 0 and path `a` to key 1. -/
theorem c6_positional_grouping_witness :
    (pairUp (swapAt 0 2 ["a", "b", "c", "d"]))[0]? = some ("c", "b") ∧
    (pairUp (swapAt 0 2 ["a", "b", "c", "d"]))[1]? = some ("a", "d") := by
  have h := c6_positional_grouping ["a", "b", "c", "d"] 0 2 (by decide)
    (by decide) (by decide) (by decide)
  exact ⟨by simpa using h.2.2.1, by simpa using h.2.2.2.1⟩

/-- C3: for every valid selector the number of requested relative paths is
the count fixed by the naming convention of the dataset: in particular
`fetch_cammoun2012` with a surface version requests 5 scales x 2
hemispheres = 10 paths, and `fetch_schaefer2018` with a non-fslr32k version
requests 20 keys x 2 hemispheres = 40 paths; the other conventions give 6
(MNI), 28 (gcs), 20 (schaefer fslr32k), 12 (fsaverage), 7 (conte69),
len(keys)+1 (connectome), 3 (single annotation), 5 (voneconomo) and 2 (hcp). -/
theorem c3_request_counts :
    (cammounFilenames "fslr32k").length = 10 ∧
    (cammounFilenames "fsaverage").length = 10 ∧
    (cammounFilenames "fsaverage5").length = 10 ∧
    (cammounFilenames "fsaverage6").length = 10 ∧
    (schaeferFilenames "fsaverage").length = 40 ∧
    (schaeferFilenames "fsaverage5").length = 40 ∧
    (schaeferFilenames "fsaverage6").length = 40 ∧
    (cammounFilenames "MNI152NLin2009aSym").length = 6 ∧
    (cammounFilenames "gcs").length = 28 ∧
    (schaeferFilenames "fslr32k").length = 20 ∧
    (∀ v, (fsaverageFilenames v).length = 12) ∧
    conte69Filenames.length = 7 ∧
    (∀ ds info, (connectomeFilenames ds info).length = info.keys.length + 1) ∧
    (∀ name info, (annotFilenames name info).length = 3) ∧
    voneconomoFilenames.length = 5 ∧
    hcpFilenames.length = 2 := by
  refine ⟨by decide, by decide, by decide, by decide, by decide, by decide,
    by decide, by decide, by decide, by decide, ?_, by decide, ?_, ?_,
    by decide, by decide⟩
  · intro v; simp [fsaverageFilenames, fsaverageKeys]
  · intro ds info; simp [connectomeFilenames]
  · intro name info; simp [annotFilenames]

/-- C9: the deprecated versions `surface` and `volume` of
`fetch_cammoun2012` behave exactly like `fsaverage` and
`MNI152NLin2009aSym` respectively, for every fetch delegate; a deprecation
warning is emitted instead of an invalid-selector error. -/
theorem c9_deprecated_aliases (d : Delegate) :
    (fetchCammoun2012 d "surface").2 = (fetchCammoun2012 d "fsaverage").2 ∧
    (fetchCammoun2012 d "volume").2 = (fetchCammoun2012 d "MNI152NLin2009aSym").2 ∧
    (fetchCammoun2012 d "surface").1 =
      ["Providing `version=\"surface\"` is deprecated and will be removed " ++
       "in a future release. For consistent behavior please use " ++
       "`version=\"fsaverage\"` instead."] ∧
    (fetchCammoun2012 d "volume").1 =
      ["Providing `version=\"volume\"` is deprecated and will be removed " ++
       "in a future release. For consistent behavior please use " ++
       "`version=\"MNI152NLin2009aSym\"` instead."] ∧
    (fetchCammoun2012 d "fsaverage").1 = [] ∧
    (fetchCammoun2012 d "MNI152NLin2009aSym").1 = [] :=
  ⟨rfl, rfl, rfl, rfl, rfl, rfl⟩

theorem okIsBundle_fetchResult (e : Except String (List String))
    (g : List String → Bundle) :
    okIsBundle (do let data ← e; pure (.bundle (g data))) = true := by
  cases e <;> rfl

theorem okIsBare_fetchResult (e : Except String (List String)) (p : String) :
    okIsBare (do let _ ← e; pure (.barePath p)) = true := by
  cases e <;> rfl

/-- C1 counterexample: the deprecated selector `surface` lies outside the
registry of `fetch_cammoun2012` yet does not raise: the fetch succeeds. -/
theorem c1_invalid_selector_counterexample :
    "surface" ∉ cammounVersions ∧
    exceptIsOk (fetchCammoun2012 okD "surface").2 = true :=
  ⟨by decide, rfl⟩

/-- C1 amended: any selector outside the registry of a fetcher, other than the
deprecated `fetch_cammoun2012` aliases `surface` and `volume` (and the
special `fetch_annotation` string `all`), raises a ValueError for every
delegate, before any fetching, whose message enumerates exactly the
registry of valid choices of that fetcher. Each fetcher gets its own
independent selector variable, so every per-fetcher instance follows,
including selectors valid for one fetcher but invalid for another. -/
theorem c1_invalid_selector_amended (v1 v2 v3 v4 v5 : String) (d : Delegate)
    (env : FileEnv) (fsl : String → Option String)
    (reg : List (String × ConnInfo)) (areg : AnnotReg)
    (hs : v1 ≠ "surface") (hv : v1 ≠ "volume") (hc : v1 ∉ cammounVersions)
    (hf : v2 ∉ fsaverageVersions)
    (hsch : v3 ∉ schaeferVersions)
    (hcon : v4 ∉ availableConnectomes reg)
    (hall : v5 ≠ "all") (han : v5 ∉ availableAnnots areg) :
    (fetchCammoun2012 d v1).2 =
      .error ("The version of Cammoun et al., 2012 parcellation requested \"" ++
        v1 ++ "\" does not exist. Must be one of " ++ pyListRepr cammounVersions) ∧
    fetchFsaverage fsl d v2 =
      .error ("The version of fsaverage requested \"" ++ v2 ++
        "\" does not exist. Must be one of " ++ pyListRepr fsaverageVersions) ∧
    fetchSchaefer2018 d v3 =
      .error ("The version of Schaefer et al., 2018 parcellation requested \"" ++
        v3 ++ "\" does not exist. Must be one of " ++ pyListRepr schaeferVersions) ∧
    fetchConnectome reg d env v4 =
      .error ("Provided dataset " ++ v4 ++ " not available; must be one of " ++
        pyListRepr (availableConnectomes reg)) ∧
    fetchAnnot areg d env (.str v5) =
      .error ("Provided dataset " ++ v5 ++ " not available; must be one of " ++
        pyListRepr (availableAnnots areg)) := by
  have hA : cammounNormalize v1 = v1 := by simp [cammounNormalize, hs, hv]
  refine ⟨?_, ?_, ?_, ?_, ?_⟩
  · simp only [fetchCammoun2012, hA]
    rw [if_pos hc]
  · simp only [fetchFsaverage]
    rw [if_pos hf]
  · simp only [fetchSchaefer2018]
    rw [if_pos hsch]
  · simp only [fetchConnectome]
    rw [if_pos hcon]
  · simp only [fetchAnnot]
    rw [if_neg hall]
    simp only [fetchAnnotSingle]
    rw [if_pos han]
    rfl

/-- C1 witness: per-fetcher invalid selectors, three of them cross-registry
(valid for another fetcher): `fsaverage3` against `fetch_cammoun2012`,
`gcs` against `fetch_fsaverage`, `MNI152NLin2009aSym` against
`fetch_schaefer2018`, and `nope` against the registry-backed fetchers. -/
theorem c1_invalid_selector_witness :
    (fetchCammoun2012 okD "fsaverage3").2 =
      .error ("The version of Cammoun et al., 2012 parcellation requested \"" ++
        "fsaverage3" ++ "\" does not exist. Must be one of " ++
        pyListRepr cammounVersions) ∧
    fetchFsaverage (fun _ => none) okD "gcs" =
      .error ("The version of fsaverage requested \"" ++ "gcs" ++
        "\" does not exist. Must be one of " ++ pyListRepr fsaverageVersions) ∧
    fetchSchaefer2018 okD "MNI152NLin2009aSym" =
      .error ("The version of Schaefer et al., 2018 parcellation requested \"" ++
        "MNI152NLin2009aSym" ++ "\" does not exist. Must be one of " ++
        pyListRepr schaeferVersions) ∧
    fetchConnectome connReg0 okD env0 "nope" =
      .error ("Provided dataset " ++ "nope" ++ " not available; must be one of " ++
        pyListRepr (availableConnectomes connReg0)) ∧
    fetchAnnot annReg0 okD env0 (.str "nope") =
      .error ("Provided dataset " ++ "nope" ++ " not available; must be one of " ++
        pyListRepr (availableAnnots annReg0)) :=
  c1_invalid_selector_amended "fsaverage3" "gcs" "MNI152NLin2009aSym" "nope"
    "nope" okD env0 (fun _ => none) connReg0 annReg0
    (by decide) (by decide) (by decide) (by decide) (by decide) (by decide)
    (by decide) (by decide)

/-- C2 counterexample: `fetch_hcp_standards` succeeds with a bare directory
path, not a keyed result bundle. -/
theorem c2_bundle_counterexample :
    fetchHcpStandards okD "/root/nnt-data" =
      .ok (.barePath "/root/nnt-data/standard_mesh_atlases") ∧
    FetchReturn.isBundle (.barePath "/root/nnt-data/standard_mesh_atlases") =
      false :=
  ⟨rfl, rfl⟩

/-- C2 amended: every public fetcher returns a keyed bundle whenever it
succeeds, except `fetch_hcp_standards`, which returns a bare directory
path (and `fetch_annotation` asked for the string `all` or a list, which
returns a plain dict, claim C10). -/
theorem c2_bundle_amended (d : Delegate) (env : FileEnv)
    (fsl : String → Option String) (reg : List (String × ConnInfo))
    (areg : AnnotReg) (preg : List PauliEntry) (v w ds dd s : String)
    (hs : s ≠ "all") :
    okIsBundle (fetchCammoun2012 d v).2 = true ∧
    okIsBundle (fetchConte69 d env) = true ∧
    okIsBundle (fetchPauli2018 preg d) = true ∧
    okIsBundle (fetchFsaverage fsl d v) = true ∧
    okIsBundle (fetchConnectome reg d env ds) = true ∧
    okIsBundle (fetchVazquezRodriguez2019 d env) = true ∧
    okIsBundle (fetchSchaefer2018 d w) = true ∧
    okIsBundle (fetchVoneconomo d) = true ∧
    okIsBundle (fetchAnnot areg d env (.str s)) = true ∧
    okIsBare (fetchHcpStandards d dd) = true := by
  refine ⟨?_, ?_, ?_, ?_, ?_, ?_, ?_, ?_, ?_, ?_⟩
  · simp only [fetchCammoun2012]
    split
    · rfl
    · exact okIsBundle_fetchResult _ _
  · exact okIsBundle_fetchResult _ _
  · exact okIsBundle_fetchResult _ _
  · simp only [fetchFsaverage]
    split
    · rfl
    · cases fsl v
      · exact okIsBundle_fetchResult _ _
      · exact okIsBundle_fetchResult _ _
  · simp only [fetchConnectome]
    split
    · rfl
    · split
      · rfl
      · exact okIsBundle_fetchResult _ _
  · exact okIsBundle_fetchResult _ _
  · simp only [fetchSchaefer2018]
    split
    · rfl
    · exact okIsBundle_fetchResult _ _
  · exact okIsBundle_fetchResult _ _
  · simp only [fetchAnnot]
    rw [if_neg hs]
    cases fetchAnnotSingle areg d env s <;> rfl
  · exact okIsBare_fetchResult _ _

/-- C2 witness: one concrete successful run of each fetcher. -/
theorem c2_bundle_witness :
    okIsBundle (fetchCammoun2012 okD "gcs").2 = true ∧
    okIsBundle (fetchConte69 okD env0) = true ∧
    okIsBundle (fetchPauli2018 pauliReg0 okD) = true ∧
    okIsBundle (fetchFsaverage (fun _ => none) okD "fsaverage") = true ∧
    okIsBundle (fetchConnectome connReg0 okD env0 "celegans") = true ∧
    okIsBundle (fetchVazquezRodriguez2019 okD env0) = true ∧
    okIsBundle (fetchSchaefer2018 okD "fslr32k") = true ∧
    okIsBundle (fetchVoneconomo okD) = true ∧
    okIsBundle (fetchAnnot annReg0 okD env0 (.str "abagen_genepc1")) = true ∧
    okIsBare (fetchHcpStandards okD "/root/nnt-data") = true :=
  c2_bundle_amended okD env0 (fun _ => none) connReg0 annReg0 pauliReg0
    "gcs" "fslr32k" "celegans" "/root/nnt-data" "abagen_genepc1" (by decide)

/-- C7: in `fetch_connectome`, every fetched file but the last goes through
the delimited loader - numeric parse first, falling back to a string array
when numeric parsing raises - while the last requested file, `ref.txt`, is
loaded as its stripped plain-text content. -/
theorem c7_connectome_loaders (env : FileEnv) (data : List String)
    (ds : String) (info : ConnInfo) (i : Nat) (hi : i + 1 < data.length) :
    (connectomeLoad env data)[i]? = some (loadDelim env (data.getD i "")) ∧
    (connectomeLoad env data)[data.length - 1]? =
      some (.text (pyStrip (env.readText (data.getLastD "")))) ∧
    (connectomeFilenames ds info).getLast? = some (pyJoin ds "ref.txt") ∧
    (∀ p, loadDelim env p =
      ((env.loadNum p).map BundleVal.numTable).getD (.strTable (env.loadStr p))) := by
  have hdl : data.dropLast.length = data.length - 1 := List.length_dropLast data
  refine ⟨?_, ?_, ?_, fun p => by cases h : env.loadNum p <;> simp [loadDelim, h]⟩
  · rw [connectomeLoad, List.getElem?_append_left (by simp [hdl]; omega),
      List.getElem?_map]
    rw [List.dropLast_eq_take, List.getElem?_take_of_lt (by omega),
      List.getElem?_eq_getElem (by omega)]
    simp [List.getD_eq_getElem?_getD, List.getElem?_eq_getElem (show i < data.length by omega)]
  · rw [connectomeLoad]
    rw [show data.length - 1 = (data.dropLast.map (loadDelim env)).length by
      simp [hdl]]
    exact List.getElem?_concat_length _ _
  · rw [connectomeFilenames]
    exact List.getLast?_concat _

/-- C7 witness on a concrete two-path list. -/
theorem c7_connectome_loaders_witness :
    (connectomeLoad env0 ["a", "b"])[0]? = some (.strTable []) ∧
    (connectomeLoad env0 ["a", "b"])[1]? = some (.text "") ∧
    (connectomeFilenames "celegans"
      { url := "u", md5 := "m", keys := ["conn"] }).getLast? =
      some "celegans/ref.txt" ∧
    loadDelim env0 "pth" = .strTable [] := by
  have h := c7_connectome_loaders env0 ["a", "b"] "celegans"
    { url := "u", md5 := "m", keys := ["conn"] } 0 (by decide)
  refine ⟨?_, ?_, ?_, ?_⟩
  · simpa [loadDelim, env0] using h.1
  · have he : pyStrip "" = "" := by decide
    simpa [env0, he] using h.2.1
  · simpa [pyJoin] using h.2.2.1
  · simpa [env0] using h.2.2.2 "pth"

/-- C8: when the fetch delegate fails, every fetcher propagates that very
failure to the caller: no local retry, no partial bundle. -/
theorem c8_failure_propagation (e : String) (d : Delegate) (env : FileEnv)
    (reg : List (String × ConnInfo)) (areg : AnnotReg) (preg : List PauliEntry)
    (v1 v2 v3 ds nm dd : String) (cinfo : ConnInfo) (ainfo : AnnotInfo)
    (hd : ∀ fs, d fs = .error e)
    (h1 : v1 ∈ cammounVersions) (h2 : v2 ∈ fsaverageVersions)
    (h3 : v3 ∈ schaeferVersions)
    (h4 : ds ∈ availableConnectomes reg) (hlk : reg.lookup ds = some cinfo)
    (h5 : nm ∈ availableAnnots areg) (hlk2 : areg.lookup nm = some ainfo)
    (hnm : nm ≠ "all") :
    (fetchCammoun2012 d v1).2 = .error e ∧
    fetchFsaverage (fun _ => none) d v2 = .error e ∧
    fetchSchaefer2018 d v3 = .error e ∧
    fetchConnectome reg d env ds = .error e ∧
    fetchAnnot areg d env (.str nm) = .error e ∧
    fetchConte69 d env = .error e ∧
    fetchPauli2018 preg d = .error e ∧
    fetchVazquezRodriguez2019 d env = .error e ∧
    fetchVoneconomo d = .error e ∧
    fetchHcpStandards d dd = .error e := by
  have hs1 : v1 ≠ "surface" := by rintro rfl; revert h1; decide
  have hs2 : v1 ≠ "volume" := by rintro rfl; revert h1; decide
  have hA : cammounNormalize v1 = v1 := by simp [cammounNormalize, hs1, hs2]
  refine ⟨?_, ?_, ?_, ?_, ?_, ?_, ?_, ?_, ?_, ?_⟩
  · simp only [fetchCammoun2012, hA]
    rw [if_neg (by simp [h1]), hd]
    rfl
  · simp only [fetchFsaverage]
    rw [if_neg (by simp [h2]), hd]
    rfl
  · simp only [fetchSchaefer2018]
    rw [if_neg (by simp [h3]), hd]
    rfl
  · simp only [fetchConnectome]
    rw [if_neg (by simp [h4]), hlk]
    show (do
      let data ← d (connectomeFilenames ds cinfo)
      pure (FetchReturn.bundle
        ((cinfo.keys ++ ["ref"]).zip (connectomeLoad env data)))) =
      Except.error e
    rw [hd]
    rfl
  · simp only [fetchAnnot]
    rw [if_neg hnm]
    simp only [fetchAnnotSingle]
    rw [if_neg (by simp [h5]), hlk2]
    show Except.map FetchReturn.bundle (do
      let data ← d (annotFilenames nm ainfo)
      pure [("data", BundleVal.numArr (data.dropLast.flatMap env.aggData)),
            ("ref", BundleVal.text (pyStrip (env.readText (data.getLastD ""))))]) =
      Except.error e
    rw [hd]
    rfl
  · simp only [fetchConte69]
    rw [hd]
    rfl
  · simp only [fetchPauli2018]
    rw [hd]
    rfl
  · simp only [fetchVazquezRodriguez2019]
    rw [hd]
    rfl
  · simp only [fetchVoneconomo]
    rw [hd]
    rfl
  · simp only [fetchHcpStandards]
    rw [hd]
    rfl

/-- C8 witness: a delegate that always fails, against every fetcher. -/
theorem c8_failure_propagation_witness :
    (fetchCammoun2012 failD "gcs").2 = .error "FetchFailure" ∧
    fetchFsaverage (fun _ => none) failD "fsaverage" = .error "FetchFailure" ∧
    fetchSchaefer2018 failD "fslr32k" = .error "FetchFailure" ∧
    fetchConnectome connReg0 failD env0 "celegans" = .error "FetchFailure" ∧
    fetchAnnot annReg0 failD env0 (.str "abagen_genepc1") =
      .error "FetchFailure" ∧
    fetchConte69 failD env0 = .error "FetchFailure" ∧
    fetchPauli2018 pauliReg0 failD = .error "FetchFailure" ∧
    fetchVazquezRodriguez2019 failD env0 = .error "FetchFailure" ∧
    fetchVoneconomo failD = .error "FetchFailure" ∧
    fetchHcpStandards failD "/root/nnt-data" = .error "FetchFailure" :=
  c8_failure_propagation "FetchFailure" failD env0 connReg0 annReg0 pauliReg0
    "gcs" "fsaverage" "fslr32k" "celegans" "abagen_genepc1" "/root/nnt-data"
    { url := "u", md5 := "m", keys := ["conn", "dist", "labels"] }
    { url := "u", md5 := "m", density := "10k", desc := "d" }
    (fun _ => rfl) (by decide) (by decide) (by decide) (by decide) rfl
    (by decide) rfl (by decide)

theorem fetchAnnotPairs_ok (areg : AnnotReg) (d : Delegate) (env : FileEnv) :
    ∀ (l : List String) (b : String → Bundle),
    (∀ a ∈ l, fetchAnnotSingle areg d env a = .ok (b a)) →
    fetchAnnotPairs areg d env l = .ok (l.map fun a => (a, b a))
  | [], _, _ => rfl
  | a :: rest, b, h => by
      have ha := h a (by simp)
      have ih := fetchAnnotPairs_ok areg d env rest b
        (fun x hx => h x (by simp [hx]))
      simp only [fetchAnnotPairs, ha, ih, List.map_cons]
      rfl

/-- C10: `fetch_annotation` given the string `all` behaves exactly as if
given the list of every available annotation name, and given a non-string
iterable it returns a plain dict - not a bundle - mapping each requested
name, in order, to the bundle a single-name fetch of it returns. -/
theorem c10_annot_arg_forms (areg : AnnotReg) (d : Delegate) (env : FileEnv)
    (l : List String) (b : String → Bundle)
    (hb : ∀ a ∈ l, fetchAnnotSingle areg d env a = .ok (b a)) :
    fetchAnnot areg d env (.str "all") =
      fetchAnnot areg d env (.list (availableAnnots areg)) ∧
    fetchAnnot areg d env (.list l) =
      .ok (.dict (l.map fun a => (a, b a))) ∧
    FetchReturn.isBundle (.dict (l.map fun a => (a, b a))) = false := by
  refine ⟨rfl, ?_, rfl⟩
  show (fetchAnnotPairs areg d env l).map FetchReturn.dict = _
  rw [fetchAnnotPairs_ok areg d env l b hb]
  rfl

/-- C10 witness on a one-name registry and list. -/
theorem c10_annot_arg_forms_witness :
    fetchAnnot annReg0 okD env0 (.str "all") =
      fetchAnnot annReg0 okD env0 (.list (availableAnnots annReg0)) ∧
    fetchAnnot annReg0 okD env0 (.list ["abagen_genepc1"]) =
      .ok (.dict [("abagen_genepc1",
        [("data", .numArr []), ("ref", .text (pyStrip ""))])]) := by
  have h := c10_annot_arg_forms annReg0 okD env0 ["abagen_genepc1"]
    (fun _ => [("data", .numArr []), ("ref", .text (pyStrip ""))])
    (by intro a ha; simp at ha; subst ha; rfl)
  exact ⟨h.1, by simpa using h.2.1⟩
